import Mathlib

/-!
# Weather component: credential store and fetch orchestration

A shallow embedding of `src/client/component/Weather.js`.

* React state (`useState`) is a record `State`; every `setX(v)` is a record update.
* A callback created by `useCallback` reads the values of the render in which it was
  created. Those values are the record `Render`; `State.render` builds the record a
  fresh render would hand to its callbacks.
* `axios.get` is an oracle `Remote`: the outcome of a call may depend on the number of
  calls issued before it, on the endpoint and on the parameters. Every issued call is
  appended to the ghost field `State.calls`.
* `localStorage` is the pair `stored` / `storageFails` of `State`.
* A `try`/`catch` is a case split on the outcome; state updates made before a throw stay.
-/

namespace Weather

/-! ## Data model -/

/-- Values taken by the `apiKeyStatus` state variable. -/
inductive ApiKeyStatus where
  | checking
  | valid
  | invalid
  | missing
  | error
  deriving DecidableEq, Repr

/-- The `snackbar` state variable. -/
structure Snackbar where
  isOpen : Bool
  message : String
  severity : String
  deriving DecidableEq, Repr

/-- The `coord` object of a current-conditions payload. The numbers are only passed on. -/
structure Coord where
  lat : Int
  lon : Int
  deriving DecidableEq, Repr

/-- A current-conditions payload (`weatherResponse.data`). `coord = none` is a payload
without a `coord` object: destructuring it throws a `TypeError`. -/
structure WeatherPayload where
  name : String
  coord : Option Coord
  deriving DecidableEq, Repr

/-- One 3-hour-step entry of the forecast list. -/
structure ForecastEntry where
  dt : Int
  weatherId : Int
  deriving DecidableEq, Repr

/-- A forecast payload (`forecastResponse.data`). -/
structure ForecastPayload where
  list : List ForecastEntry
  deriving DecidableEq, Repr

/-- One element of the reverse-geocoding array. -/
structure GeoEntry where
  state : Option String
  deriving DecidableEq, Repr

/-- A reverse-geocoding payload (`geoResponse.data`): `none` is a body that cannot be
indexed (`null`/`undefined`), on which `data[0]` throws a `TypeError`. -/
abbrev GeoPayload := Option (List GeoEntry)

/-- What a `catch (err)` clause can observe of a thrown value: `err.response?.status`
and `err.code`. A `TypeError` has neither. -/
structure JsError where
  status : Option Nat
  code : Option String
  deriving DecidableEq, Repr

/-- The `TypeError` thrown by property access on `undefined`. -/
def typeError : JsError := ⟨none, none⟩

/-- Outcome of one `await axios.get(...)`: a resolved response or a thrown error. -/
inductive HttpResult (α : Type) where
  | ok (status : Nat) (data : α)
  | fail (err : JsError)
  deriving Repr

/-- A remote call, as recorded in the call log. -/
inductive Request where
  | weather (q appid : String)
  | forecast (q appid : String)
  | reverse (lat lon : Int) (appid : String)
  deriving DecidableEq, Repr

/-- The remote service. The first argument of each endpoint is the number of calls
issued so far, so successive calls may have different outcomes. -/
structure Remote where
  weather : Nat → String → String → HttpResult WeatherPayload
  forecast : Nat → String → String → HttpResult ForecastPayload
  reverse : Nat → Int → Int → String → HttpResult GeoPayload

/-- The `weatherData` state variable once set. -/
structure Snapshot where
  current : WeatherPayload
  forecast : ForecastPayload
  deriving DecidableEq, Repr

/-- Component state (the `useState` variables), the browser storage slot
`openweather_api_key`, and the log of remote calls. -/
structure State where
  weatherData : Option Snapshot
  loading : Bool
  error : Option String
  city : String
  searchInput : String
  apiKeyDialog : Bool
  tempApiKey : String
  apiKeyStatus : ApiKeyStatus
  localApiKey : Option String
  isClient : Bool
  snackbar : Snackbar
  province : String
  stored : Option String
  storageFails : Bool
  calls : List Request
  deriving DecidableEq, Repr

/-- The values a callback closes over: the build-time key
`process.env.NEXT_PUBLIC_OPENWEATHER_API_KEY` and the state variables of the render in
which the callback was created. -/
structure Render where
  envKey : Option String
  localApiKey : Option String
  isClient : Bool
  city : String
  tempApiKey : String
  deriving DecidableEq, Repr

/-- The closure values of a render of state `s`. -/
def State.render (envKey : Option String) (s : State) : Render :=
  { envKey := envKey, localApiKey := s.localApiKey, isClient := s.isClient,
    city := s.city, tempApiKey := s.tempApiKey }

/-- State of the first render: the initial values given to `useState`. -/
def State.initial (stored : Option String) (storageFails : Bool) : State :=
  { weatherData := none, loading := false, error := none, city := "London",
    searchInput := "", apiKeyDialog := false, tempApiKey := "",
    apiKeyStatus := .checking, localApiKey := none, isClient := false,
    snackbar := ⟨false, "", "info"⟩, province := "",
    stored := stored, storageFails := storageFails, calls := [] }

/-! ## JavaScript helpers -/

/-- Truthiness of a value that is a string, `null` or `undefined`. -/
def truthy : Option String → Bool
  | some k => k != ""
  | none => false

/-- The operator `a || b` on such values. -/
def jsOr (a b : Option String) : Option String :=
  if truthy a then a else b

/-- Code points removed by `String.prototype.trim` (WhiteSpace and LineTerminator). -/
def isJsWhitespace (c : Char) : Bool :=
  let n := c.toNat
  n == 9 || n == 10 || n == 11 || n == 12 || n == 13 || n == 32 || n == 160 ||
  n == 0x1680 || (0x2000 ≤ n && n ≤ 0x200A) || n == 0x2028 || n == 0x2029 ||
  n == 0x202F || n == 0x205F || n == 0x3000 || n == 0xFEFF

/-- The method `String.prototype.trim`. -/
def jsTrim (s : String) : String :=
  String.mk ((s.data.dropWhile isJsWhitespace).reverse.dropWhile isJsWhitespace).reverse

/-! ## User-facing messages (string literals of the source) -/

def msgMissing : String := "API key not configured. Please add your OpenWeather API key."
def msgInvalid : String := "Invalid API key. Please check your OpenWeather API configuration."
def msgNotFound : String := "City not found. Please check the spelling and try again."
def msgRateLimit : String := "API rate limit exceeded. Please try again later."
def msgUnavailable : String :=
  "OpenWeather service is temporarily unavailable. Please try again later."
def msgTimeout : String :=
  "Request timeout. Please check your internet connection and try again."
def msgGeneric : String :=
  "Failed to fetch weather data. Please check your internet connection and try again."
def msgStorageWarning : String := "Failed to save API key to local storage"

/-! ## Credential store -/

/-- The mount effect: `setIsClient(true)`, then read the stored key into `localApiKey`;
a throwing storage read is caught and `isClient` is set again. -/
def initClient (s : State) : State :=
  let s1 := { s with isClient := true }
  if s1.storageFails then { s1 with isClient := true }
  else { s1 with localApiKey := s1.stored }

/-- The callback `getApiKey`: `envKey || localApiKey || null`. -/
def getApiKey (r : Render) : Option String :=
  jsOr (jsOr r.envKey r.localApiKey) none

/-- The callback `setApiKey`: under the guard `isClient && key`, write the key to
storage and then to `localApiKey`; a throwing write skips the rest of the `try` block
and opens the warning snackbar. -/
def setApiKey (r : Render) (key : String) (s : State) : State :=
  if r.isClient && key != "" then
    if s.storageFails then
      { s with snackbar := ⟨true, msgStorageWarning, "warning"⟩ }
    else
      let s1 := { s with stored := some key }
      { s1 with localApiKey := some key }
  else s

/-! ## Fetch orchestration -/

/-- The callback `fetchProvince`: one reverse-geocoding call; the province is the
`state` of the first element or the empty string, and the empty string on any error. -/
def fetchProvince (w : Remote) (lat lon : Int) (apiKey : String) (s : State) : State :=
  let s1 := { s with calls := s.calls ++ [Request.reverse lat lon apiKey] }
  match w.reverse s.calls.length lat lon apiKey with
  | .ok _ (some entries) =>
    let provinceName := (jsOr (entries.head?.bind GeoEntry.state) (some "")).getD ""
    { s1 with province := provinceName }
  | .ok _ none => { s1 with province := "" }
  | .fail _ => { s1 with province := "" }

/-- The `catch (err)` block of `fetchWeatherData`. -/
def catchWeatherError (err : JsError) (s : State) : State :=
  let s1 := { s with province := "" }
  if err.status = some 401 then
    let s2 := { s1 with error := some msgInvalid }
    { s2 with apiKeyStatus := .invalid }
  else if err.status = some 404 then
    { s1 with error := some msgNotFound }
  else if err.status = some 429 then
    { s1 with error := some msgRateLimit }
  else if (match err.status with | some n => decide (500 ≤ n) | none => false) then
    { s1 with error := some msgUnavailable }
  else if err.code = some "ECONNABORTED" then
    { s1 with error := some msgTimeout }
  else
    { s1 with error := some msgGeneric }

/-- The `try` block of `fetchWeatherData` after the credential guard, with its `catch`:
`currentApiKey` is the credential `key`. -/
def fetchWeatherDataTry (w : Remote) (cityName key : String) (s : State) : State :=
  let s1 := { s with loading := true }
  let s2 := { s1 with error := none }
  let s3 := { s2 with calls := s2.calls ++ [Request.weather cityName key] }
  match w.weather s2.calls.length cityName key with
  | .fail err => catchWeatherError err s3
  | .ok _ weatherData =>
    let s4 := { s3 with calls := s3.calls ++ [Request.forecast cityName key] }
    match w.forecast s3.calls.length cityName key with
    | .fail err => catchWeatherError err s4
    | .ok _ forecastData =>
      let s5 := { s4 with weatherData := some ⟨weatherData, forecastData⟩ }
      let s6 := { s5 with apiKeyStatus := .valid }
      match weatherData.coord with
      | none => catchWeatherError typeError s6
      | some c => fetchProvince w c.lat c.lon key s6

/-- The `try`/`catch` part of `fetchWeatherData`: the credential guard, then the calls. -/
def fetchWeatherDataBody (r : Render) (w : Remote) (cityName : String) (s : State) : State :=
  let currentApiKey := getApiKey r
  if !truthy currentApiKey then
    let s1 := { s with error := some msgMissing }
    { s1 with apiKeyStatus := .missing }
  else
    fetchWeatherDataTry w cityName (currentApiKey.getD "") s

/-- The callback `fetchWeatherData(cityName = city)`: the body, then the `finally`
block `setLoading(false)`. The call to `fetchProvince` is not awaited; it is run to
completion here, which gives the same final state since it only writes `province`
and the call log. -/
def fetchWeatherData (r : Render) (w : Remote) (cityName : Option String) (s : State) :
    State :=
  let s1 := fetchWeatherDataBody r w (cityName.getD r.city) s
  { s1 with loading := false }

/-- The function `validateApiKey` of the validation effect. -/
def validateApiKey (r : Render) (w : Remote) (s : State) : State :=
  let currentApiKey := getApiKey r
  if !truthy currentApiKey then
    { s with apiKeyStatus := .missing }
  else
    let key := currentApiKey.getD ""
    let s1 := { s with calls := s.calls ++ [Request.weather "London" key] }
    match w.weather s.calls.length "London" key with
    | .ok status _ =>
      if status = 200 then
        let s2 := { s1 with apiKeyStatus := .valid }
        fetchWeatherData r w none s2
      else s1
    | .fail err =>
      if err.status = some 401 then { s1 with apiKeyStatus := .invalid }
      else { s1 with apiKeyStatus := .error }

/-- The synchronous part of the callback `handleApiKeySubmit`; the flag tells whether
the 200 ms timer was started. -/
def handleApiKeySubmit (r : Render) (s : State) : State × Bool :=
  if jsTrim r.tempApiKey != "" then
    let s1 := setApiKey r (jsTrim r.tempApiKey) s
    let s2 := { s1 with apiKeyDialog := false }
    let s3 := { s2 with tempApiKey := "" }
    (s3, true)
  else (s, false)

/-- The timer callback of `handleApiKeySubmit`, up to the call of `fetchWeatherData`.
It calls the `getApiKey` of the render `r` in which the submit handler was created. -/
def handleApiKeySubmitTimerHead (r : Render) (s : State) : State × Bool :=
  if truthy (getApiKey r) then ({ s with apiKeyStatus := .checking }, true)
  else (s, false)

/-- The timer callback of `handleApiKeySubmit`. -/
def handleApiKeySubmitTimer (r : Render) (w : Remote) (s : State) : State :=
  let p := handleApiKeySubmitTimerHead r s
  if p.2 then fetchWeatherData r w none p.1 else p.1

/-! ## Error classification, in the words of the specification -/

/-- The six classifications of a failed fetch. -/
inductive Classification where
  | unauthorized
  | notFound
  | rateLimited
  | upstreamUnavailable
  | timeout
  | connectivity
  deriving DecidableEq, Repr

/-- Classification by precedence: HTTP 401, 404, 429, any status from 500 upwards,
then the error code `ECONNABORTED`, then everything else. -/
def classify (err : JsError) : Classification :=
  match err.status with
  | some 401 => .unauthorized
  | some 404 => .notFound
  | some 429 => .rateLimited
  | some n =>
    if 500 ≤ n then .upstreamUnavailable
    else if err.code = some "ECONNABORTED" then .timeout
    else .connectivity
  | none => if err.code = some "ECONNABORTED" then .timeout else .connectivity

/-- The user-facing message of a classification. -/
def Classification.message : Classification → String
  | .unauthorized => msgInvalid
  | .notFound => msgNotFound
  | .rateLimited => msgRateLimit
  | .upstreamUnavailable => msgUnavailable
  | .timeout => msgTimeout
  | .connectivity => msgGeneric

/-- Step 1 (current conditions) or step 2 (forecast) of a fetch started in state `s`
with credential `key` throws `err`. -/
def StepFails (w : Remote) (city key : String) (s : State) (err : JsError) : Prop :=
  w.weather s.calls.length city key = .fail err ∨
  ∃ st d, w.weather s.calls.length city key = .ok st d ∧
    w.forecast (s.calls.length + 1) city key = .fail err

/-! ## Sample worlds used to instantiate the theorems -/

/-- A payload for London with coordinates. -/
def londonPayload : WeatherPayload := ⟨"London", some ⟨51, 0⟩⟩

/-- A remote on which every call throws `err`. -/
def Remote.failing (err : JsError) : Remote :=
  { weather := fun _ _ _ => .fail err
    forecast := fun _ _ _ => .fail err
    reverse := fun _ _ _ _ => .fail err }

/-- A remote answering 200 to conditions and forecast calls, and `geo` to
reverse-geocoding calls. -/
def Remote.serving (p : WeatherPayload) (f : ForecastPayload)
    (geo : HttpResult GeoPayload) : Remote :=
  { weather := fun _ _ _ => .ok 200 p
    forecast := fun _ _ _ => .ok 200 f
    reverse := fun _ _ _ _ => geo }

/-- A remote answering every conditions call with the resolved status `st`. -/
def Remote.answering (st : Nat) (p : WeatherPayload) : Remote :=
  { weather := fun _ _ _ => .ok st p
    forecast := fun _ _ _ => .fail typeError
    reverse := fun _ _ _ _ => .fail typeError }

/-- A render of the initial state with a stored key and no build-time key. -/
def renderWithKey : Render :=
  { envKey := none, localApiKey := some "K", isClient := true, city := "London",
    tempApiKey := "" }

/-- A render of the initial state with no key at all. -/
def renderNoKey : Render :=
  { envKey := none, localApiKey := none, isClient := true, city := "London",
    tempApiKey := "" }

/-- Credential precedence in the words of the specification: the build-time value when
it is non-empty, else the persisted override when it is non-empty, else nothing. -/
def resolveSpec (buildTime persisted : Option String) : Option String :=
  match buildTime with
  | some e => if e ≠ "" then some e else
    match persisted with
    | some p => if p ≠ "" then some p else none
    | none => none
  | none =>
    match persisted with
    | some p => if p ≠ "" then some p else none
    | none => none

/-- A client-initialised state in which the user typed `typed` into the key dialog;
Credential Status is `valid`. -/
def stateTyping (typed : String) (storageFails : Bool) : State :=
  { { initClient (State.initial none storageFails) with tempApiKey := typed } with
    apiKeyStatus := .valid }

/-- A current-conditions payload without a `coord` object. -/
def payloadNoCoord : WeatherPayload := ⟨"London", none⟩

/-! ## Presentation helpers -/

/-- The method `Array.prototype.filter` with a callback `(item, index) => ...`, started
at index `index`. -/
def filterFrom {α : Type} (p : α → Nat → Bool) : Nat → List α → List α
  | _, [] => []
  | index, item :: rest =>
    if p item index then item :: filterFrom p (index + 1) rest
    else filterFrom p (index + 1) rest

/-- The method `Array.prototype.filter`. -/
def jsFilter {α : Type} (p : α → Nat → Bool) (l : List α) : List α :=
  filterFrom p 0 l

/-- The method `Array.prototype.slice(start, stop)` for non-negative bounds. -/
def jsSlice {α : Type} (start stop : Nat) (l : List α) : List α :=
  (l.drop start).take (stop - start)

/-- The list rendered by the 5-day forecast card:
`list.filter((item, index) => index % 8 === 0).slice(0, 5)`. -/
def forecastPerDay {α : Type} (list : List α) : List α :=
  jsSlice 0 5 (jsFilter (fun _ index => index % 8 == 0) list)

/-- A forecast list of 40 entries, entry `i` stamped `dt = i`. -/
def sampleForecast : List ForecastEntry :=
  (List.range 40).map (fun i => ⟨(i : Int), 800⟩)

/-! ### Weather icons (string literals of the source) -/

def iconThunderstorm : String := "âš¡"
def iconDrizzle : String := "ðŸŒ§ï¸"
def iconRain : String := "ðŸŒ§ï¸"
def iconSnow : String := "â„ï¸"
def iconAtmosphere : String := "ðŸŒ«ï¸"
def iconClear : String := "â˜€ï¸"
def iconClouds : String := "â˜ï¸"
def iconDefault : String := "ðŸŒ¤ï¸"

/-- The method `String.prototype.startsWith`. -/
def jsStartsWith (s pre : String) : Bool :=
  pre.data.isPrefixOf s.data

/-- The method `Number.prototype.toString` on an integer: its decimal numeral (exact
for magnitudes below `10 ^ 21`). -/
def numberToString (n : Int) : String :=
  toString n

/-- The callback `getWeatherIcon`. The argument is an integer code, or `none` for
`null`/`undefined`, on which `weatherCode.toString()` throws and the `catch` block
returns the default icon. -/
def getWeatherIcon (weatherCode : Option Int) : String :=
  match weatherCode with
  | none => iconDefault
  | some n =>
    let code := numberToString n
    if jsStartsWith code "2" then iconThunderstorm
    else if jsStartsWith code "3" then iconDrizzle
    else if jsStartsWith code "5" then iconRain
    else if jsStartsWith code "6" then iconSnow
    else if jsStartsWith code "7" then iconAtmosphere
    else if code = "800" then iconClear
    else if jsStartsWith code "8" then iconClouds
    else iconDefault

/-! ## Shared lemmas -/

theorem getApiKey_some_truthy {r : Render} {key : String} (h : getApiKey r = some key) :
    truthy (getApiKey r) = true ∧ key ≠ "" := by
  unfold getApiKey jsOr at *
  rcases r with ⟨e, l, c, ci, t⟩
  rcases e with _ | e <;> rcases l with _ | l <;> simp [truthy] at h ⊢
  all_goals (split_ifs at h ⊢ <;> simp_all)

theorem getApiKey_none_truthy {r : Render} (h : getApiKey r = none) :
    truthy (getApiKey r) = false := by
  rw [h]; rfl

theorem fetchWeatherDataBody_of_key {r : Render} {key : String} (hk : getApiKey r = some key)
    (w : Remote) (cityName : String) (s : State) :
    fetchWeatherDataBody r w cityName s = fetchWeatherDataTry w cityName key s := by
  have ht := (getApiKey_some_truthy hk).1
  unfold fetchWeatherDataBody
  simp only [ht, Bool.not_true, Bool.false_eq_true, if_false]
  rw [hk]; rfl

theorem fetchWeatherDataBody_of_none {r : Render} (hk : getApiKey r = none)
    (w : Remote) (cityName : String) (s : State) :
    fetchWeatherDataBody r w cityName s =
      { { s with error := some msgMissing } with apiKeyStatus := .missing } := by
  unfold fetchWeatherDataBody
  simp [hk, truthy]

theorem catchWeatherError_error (err : JsError) (s : State) :
    (catchWeatherError err s).error = some (classify err).message := by
  rcases err with ⟨st, code⟩
  unfold catchWeatherError classify
  rcases st with _ | n
  · by_cases hc : code = some "ECONNABORTED" <;> simp [hc, Classification.message]
  · by_cases h1 : n = 401
    · subst h1; simp [Classification.message]
    by_cases h2 : n = 404
    · subst h2; simp [Classification.message]
    by_cases h3 : n = 429
    · subst h3; simp [Classification.message]
    by_cases h5 : 500 ≤ n <;> by_cases hc : code = some "ECONNABORTED" <;>
      simp [h1, h2, h3, h5, hc, Classification.message]

theorem catchWeatherError_status (err : JsError) (s : State) :
    (catchWeatherError err s).apiKeyStatus =
      if err.status = some 401 then .invalid else s.apiKeyStatus := by
  unfold catchWeatherError
  split_ifs <;> rfl

theorem catchWeatherError_frame (err : JsError) (s : State) :
    (catchWeatherError err s).weatherData = s.weatherData ∧
    (catchWeatherError err s).calls = s.calls ∧
    (catchWeatherError err s).province = "" := by
  unfold catchWeatherError
  split_ifs <;> simp

theorem classify_unauthorized_iff (err : JsError) :
    classify err = .unauthorized ↔ err.status = some 401 := by
  rcases err with ⟨st, code⟩
  unfold classify
  rcases st with _ | n
  · by_cases hc : code = some "ECONNABORTED" <;> simp [hc]
  · by_cases h1 : n = 401
    · subst h1; simp
    by_cases h2 : n = 404
    · subst h2; simp
    by_cases h3 : n = 429
    · subst h3; simp
    by_cases h5 : 500 ≤ n <;> by_cases hc : code = some "ECONNABORTED" <;>
      simp [h1, h2, h3, h5, hc]

/-- A fetch whose step 1 or step 2 throws `err` ends in the `catch` block, entered
with the snapshot and the Credential Status of the start. -/
theorem fetchWeatherData_of_stepFails (r : Render) (w : Remote) (cityName : Option String)
    (s : State) (key : String) (err : JsError) (hk : getApiKey r = some key)
    (hf : StepFails w (cityName.getD r.city) key s err) :
    ∃ s0 : State, s0.weatherData = s.weatherData ∧ s0.apiKeyStatus = s.apiKeyStatus ∧
      fetchWeatherData r w cityName s = { catchWeatherError err s0 with loading := false } := by
  rw [fetchWeatherData, fetchWeatherDataBody_of_key hk]
  rcases hf with h1 | ⟨st, d, h1, h2⟩
  · refine ⟨{ { { s with loading := true } with error := none } with
      calls := s.calls ++ [Request.weather (cityName.getD r.city) key] }, rfl, rfl, ?_⟩
    simp only [fetchWeatherDataTry, h1]
  · refine ⟨{ { { s with loading := true } with error := none } with
      calls := (s.calls ++ [Request.weather (cityName.getD r.city) key]) ++
        [Request.forecast (cityName.getD r.city) key] }, rfl, rfl, ?_⟩
    simp only [fetchWeatherDataTry, h1, List.length_append, List.length_singleton, h2]

theorem message_injective : Function.Injective Classification.message := by
  intro a b h
  cases a <;> cases b <;> first | rfl | (exfalso; revert h; decide)

/-! ## C1: fetch without a credential -/

/-- C1. When `getApiKey()` yields no credential, `fetchWeatherData` issues no remote
call (the call log is unchanged), sets the error to the missing-credential message and
sets Credential Status to `missing`, for every place name and prior state. -/
theorem c1_fetch_without_credential (r : Render) (w : Remote) (cityName : Option String)
    (s : State) (h : getApiKey r = none) :
    (fetchWeatherData r w cityName s).calls = s.calls ∧
    (fetchWeatherData r w cityName s).error = some msgMissing ∧
    (fetchWeatherData r w cityName s).apiKeyStatus = .missing := by
  rw [fetchWeatherData, fetchWeatherDataBody_of_none h]
  exact ⟨rfl, rfl, rfl⟩

theorem c1_fetch_without_credential_witness :
    getApiKey renderNoKey = none ∧
    (fetchWeatherData renderNoKey (Remote.failing typeError) (some "Paris")
      (State.initial none false)).calls = [] ∧
    (fetchWeatherData renderNoKey (Remote.failing typeError) (some "Paris")
      (State.initial none false)).error = some msgMissing ∧
    (fetchWeatherData renderNoKey (Remote.failing typeError) (some "Paris")
      (State.initial none false)).apiKeyStatus = .missing :=
  ⟨rfl, c1_fetch_without_credential renderNoKey (Remote.failing typeError) (some "Paris")
    (State.initial none false) rfl⟩

/-! ## C2: classification of a failed step -/

/-- C2. With a credential present, when the current-conditions or the forecast call
throws `err`, the error set by `fetchWeatherData` is the message of `classify err`
(401, 404, 429, status from 500 upwards, then code ECONNABORTED, then the generic
failure), and the six classifications have pairwise distinct messages. -/
theorem c2_error_classification (r : Render) (w : Remote) (cityName : Option String)
    (s : State) (key : String) (err : JsError) (hk : getApiKey r = some key)
    (hf : StepFails w (cityName.getD r.city) key s err) :
    (fetchWeatherData r w cityName s).error = some (classify err).message ∧
    Function.Injective Classification.message := by
  obtain ⟨s0, -, -, h⟩ := fetchWeatherData_of_stepFails r w cityName s key err hk hf
  rw [h]
  exact ⟨catchWeatherError_error err s0, message_injective⟩

theorem c2_error_classification_witness :
    getApiKey renderWithKey = some "K" ∧
    StepFails (Remote.failing ⟨some 503, some "ECONNABORTED"⟩)
      ((none : Option String).getD renderWithKey.city) "K" (State.initial none false)
      ⟨some 503, some "ECONNABORTED"⟩ ∧
    (fetchWeatherData renderWithKey (Remote.failing ⟨some 503, some "ECONNABORTED"⟩) none
      (State.initial none false)).error = some msgUnavailable ∧
    Function.Injective Classification.message :=
  ⟨rfl, Or.inl rfl,
    c2_error_classification renderWithKey (Remote.failing ⟨some 503, some "ECONNABORTED"⟩)
      none (State.initial none false) "K" ⟨some 503, some "ECONNABORTED"⟩ rfl (Or.inl rfl)⟩

/-! ## C3: HTTP 401 on the conditions call -/

/-- C3. With a credential present, when the current-conditions call fails with HTTP
401, `fetchWeatherData` ends with the invalid-credential message as error and
Credential Status `invalid`, for every place name and prior state. -/
theorem c3_unauthorized_sets_invalid (r : Render) (w : Remote) (cityName : Option String)
    (s : State) (key : String) (err : JsError) (hk : getApiKey r = some key)
    (h1 : w.weather s.calls.length (cityName.getD r.city) key = .fail err)
    (h401 : err.status = some 401) :
    (fetchWeatherData r w cityName s).error = some msgInvalid ∧
    (fetchWeatherData r w cityName s).apiKeyStatus = .invalid := by
  obtain ⟨s0, -, -, h⟩ :=
    fetchWeatherData_of_stepFails r w cityName s key err hk (Or.inl h1)
  rw [h]
  refine ⟨?_, ?_⟩
  · show (catchWeatherError err s0).error = _
    rw [catchWeatherError_error, (classify_unauthorized_iff err).2 h401]; rfl
  · show (catchWeatherError err s0).apiKeyStatus = _
    rw [catchWeatherError_status, if_pos h401]

theorem c3_unauthorized_sets_invalid_witness :
    getApiKey renderWithKey = some "K" ∧
    (fetchWeatherData renderWithKey (Remote.failing ⟨some 401, none⟩) (some "Paris")
      (State.initial none false)).error = some msgInvalid ∧
    (fetchWeatherData renderWithKey (Remote.failing ⟨some 401, none⟩) (some "Paris")
      (State.initial none false)).apiKeyStatus = .invalid :=
  ⟨rfl, c3_unauthorized_sets_invalid renderWithKey (Remote.failing ⟨some 401, none⟩)
    (some "Paris") (State.initial none false) "K" ⟨some 401, none⟩ rfl rfl rfl⟩

/-! ## C4: failures other than 401 leave Credential Status alone -/

/-- C4. With a credential present, when step 1 or step 2 throws an error that is not
classified unauthorized, Credential Status after `fetchWeatherData` is the prior
status; and when the error is HTTP 404 the error set is the place-not-found message. -/
theorem c4_status_unchanged (r : Render) (w : Remote) (cityName : Option String)
    (s : State) (key : String) (err : JsError) (hk : getApiKey r = some key)
    (hf : StepFails w (cityName.getD r.city) key s err)
    (hne : classify err ≠ .unauthorized) :
    (fetchWeatherData r w cityName s).apiKeyStatus = s.apiKeyStatus ∧
    (err.status = some 404 → (fetchWeatherData r w cityName s).error = some msgNotFound) := by
  obtain ⟨s0, -, hs, h⟩ := fetchWeatherData_of_stepFails r w cityName s key err hk hf
  rw [h]
  have h401 : ¬ err.status = some 401 := fun h => hne ((classify_unauthorized_iff err).2 h)
  refine ⟨?_, fun h404 => ?_⟩
  · show (catchWeatherError err s0).apiKeyStatus = _
    rw [catchWeatherError_status, if_neg h401, hs]
  · show (catchWeatherError err s0).error = _
    rw [catchWeatherError_error]
    have : classify err = .notFound := by
      rcases err with ⟨st, code⟩
      simp only at h404
      subst h404
      rfl
    rw [this]; rfl

theorem c4_status_unchanged_witness :
    getApiKey renderWithKey = some "K" ∧
    StepFails (Remote.failing ⟨some 404, none⟩) ((some "Atlantis").getD renderWithKey.city)
      "K" (State.initial none false) ⟨some 404, none⟩ ∧
    classify ⟨some 404, none⟩ ≠ .unauthorized ∧
    (fetchWeatherData renderWithKey (Remote.failing ⟨some 404, none⟩) (some "Atlantis")
      (State.initial none false)).apiKeyStatus = .checking ∧
    (fetchWeatherData renderWithKey (Remote.failing ⟨some 404, none⟩) (some "Atlantis")
      (State.initial none false)).error = some msgNotFound :=
  ⟨rfl, Or.inl rfl, by decide,
    (c4_status_unchanged renderWithKey (Remote.failing ⟨some 404, none⟩) (some "Atlantis")
      (State.initial none false) "K" ⟨some 404, none⟩ rfl (Or.inl rfl) (by decide)).1,
    (c4_status_unchanged renderWithKey (Remote.failing ⟨some 404, none⟩) (some "Atlantis")
      (State.initial none false) "K" ⟨some 404, none⟩ rfl (Or.inl rfl) (by decide)).2 rfl⟩

/-! ## C5: failures of the reverse-geocoding step -/

/-- Failures of the reverse-geocoding call itself are absorbed by `fetchProvince`: with
a credential present, when the current-conditions and forecast calls both succeed,
the conditions payload carries coordinates and the call issued with them fails (a
thrown error, or a body that cannot be indexed), the fetch ends with the snapshot set
to the two payloads, no error, and province `""`. -/
theorem geocoding_call_failure_absorbed (r : Render) (w : Remote) (cityName : Option String)
    (s : State) (key : String) (st1 st2 : Nat) (d1 : WeatherPayload) (d2 : ForecastPayload)
    (c : Coord) (hk : getApiKey r = some key)
    (h1 : w.weather s.calls.length (cityName.getD r.city) key = .ok st1 d1)
    (h2 : w.forecast (s.calls.length + 1) (cityName.getD r.city) key = .ok st2 d2)
    (hc : d1.coord = some c)
    (h3 : (∃ e, w.reverse (s.calls.length + 2) c.lat c.lon key = .fail e) ∨
      (∃ st, w.reverse (s.calls.length + 2) c.lat c.lon key = .ok st none)) :
    (fetchWeatherData r w cityName s).weatherData = some ⟨d1, d2⟩ ∧
    (fetchWeatherData r w cityName s).error = none ∧
    (fetchWeatherData r w cityName s).province = "" := by
  rw [fetchWeatherData, fetchWeatherDataBody_of_key hk]
  simp only [fetchWeatherDataTry, h1, List.length_append, List.length_singleton, h2, hc,
    fetchProvince]
  rcases h3 with ⟨e, h3⟩ | ⟨st, h3⟩ <;> rw [h3] <;> exact ⟨rfl, rfl, rfl⟩

theorem geocoding_call_failure_absorbed_example :
    getApiKey renderWithKey = some "K" ∧
    (fetchWeatherData renderWithKey
      (Remote.serving londonPayload ⟨[]⟩ (.fail ⟨some 500, none⟩)) none
      (State.initial none false)).weatherData = some ⟨londonPayload, ⟨[]⟩⟩ ∧
    (fetchWeatherData renderWithKey
      (Remote.serving londonPayload ⟨[]⟩ (.fail ⟨some 500, none⟩)) none
      (State.initial none false)).error = none ∧
    (fetchWeatherData renderWithKey
      (Remote.serving londonPayload ⟨[]⟩ (.fail ⟨some 500, none⟩)) none
      (State.initial none false)).province = "" :=
  ⟨rfl, geocoding_call_failure_absorbed renderWithKey
    (Remote.serving londonPayload ⟨[]⟩ (.fail ⟨some 500, none⟩)) none
    (State.initial none false) "K" 200 200 londonPayload ⟨[]⟩ ⟨51, 0⟩ rfl rfl rfl rfl
    (Or.inl ⟨_, rfl⟩)⟩

/-- C5, evaluated at the failing input. Both calls answer 200, the reverse-geocoding
service is up, but the conditions payload has no `coord` object: extracting the
coordinate pair, the first half of the reverse-geocoding step, throws in the `try`
block of `fetchWeatherData` and not inside `fetchProvince`. No reverse-geocoding call
is issued, the province is `""`, the snapshot is set, and the generic error is set:
the failure of the step is not absorbed. -/
theorem c5_extraction_failure_not_absorbed :
    (fetchWeatherData renderWithKey
      (Remote.serving payloadNoCoord ⟨[]⟩ (.ok 200 (some [⟨some "England"⟩])))
      (some "London") (State.initial none false)).calls =
        [Request.weather "London" "K", Request.forecast "London" "K"] ∧
    (fetchWeatherData renderWithKey
      (Remote.serving payloadNoCoord ⟨[]⟩ (.ok 200 (some [⟨some "England"⟩])))
      (some "London") (State.initial none false)).weatherData =
        some ⟨payloadNoCoord, ⟨[]⟩⟩ ∧
    (fetchWeatherData renderWithKey
      (Remote.serving payloadNoCoord ⟨[]⟩ (.ok 200 (some [⟨some "England"⟩])))
      (some "London") (State.initial none false)).province = "" ∧
    (fetchWeatherData renderWithKey
      (Remote.serving payloadNoCoord ⟨[]⟩ (.ok 200 (some [⟨some "England"⟩])))
      (some "London") (State.initial none false)).error = some msgGeneric := by
  decide

/-! ## C6: setting a new credential -/

/-- C6, as stated, fails. With a build-time key `BUILD`, after `setApiKey("NEW")` the
Credential Status is still `valid` and a subsequent `getApiKey()` returns `BUILD`; the
same holds after `handleApiKeySubmit` and its timer callback. -/
theorem c6_counterexample :
    (setApiKey ((stateTyping "NEW" false).render (some "BUILD")) "NEW"
      (stateTyping "NEW" false)).apiKeyStatus ≠ .checking ∧
    getApiKey ((setApiKey ((stateTyping "NEW" false).render (some "BUILD")) "NEW"
      (stateTyping "NEW" false)).render (some "BUILD")) ≠ some "NEW" ∧
    getApiKey ((handleApiKeySubmitTimer ((stateTyping "NEW" false).render (some "BUILD"))
      (Remote.failing typeError)
      (handleApiKeySubmit ((stateTyping "NEW" false).render (some "BUILD"))
        (stateTyping "NEW" false)).1).render (some "BUILD")) ≠ some "NEW" := by
  decide

/-- C6, amended. For a non-empty `k`, in a client-initialised state whose storage write
succeeds, `setApiKey(k)` writes `k` to storage and to `localApiKey` and leaves
Credential Status as it was; a subsequent `getApiKey()` returns the build-time key
when one is configured and `k` otherwise; a restart reads `k` back from storage; and
`handleApiKeySubmit` does the same with the trimmed dialog input, closes the dialog,
clears the input and starts its timer. -/
theorem c6_set_credential (envKey : Option String) (s : State) (k : String)
    (hk : k ≠ "") (hc : s.isClient = true) (hw : s.storageFails = false) :
    (setApiKey (s.render envKey) k s).stored = some k ∧
    (setApiKey (s.render envKey) k s).localApiKey = some k ∧
    (setApiKey (s.render envKey) k s).apiKeyStatus = s.apiKeyStatus ∧
    getApiKey ((setApiKey (s.render envKey) k s).render envKey) =
      (if truthy envKey then envKey else some k) ∧
    (initClient (State.initial (setApiKey (s.render envKey) k s).stored false)).localApiKey
      = some k ∧
    (jsTrim s.tempApiKey = k → handleApiKeySubmit (s.render envKey) s =
      ({ { setApiKey (s.render envKey) k s with apiKeyDialog := false } with
          tempApiKey := "" }, true)) := by
  have hset : setApiKey (s.render envKey) k s =
      { { s with stored := some k } with localApiKey := some k } := by
    simp [setApiKey, State.render, hc, hw, hk]
  have hkt : truthy (some k) = true := by simp [truthy, hk]
  refine ⟨by rw [hset], by rw [hset], by rw [hset], ?_, by rw [hset]; rfl, ?_⟩
  · rw [hset]
    simp only [getApiKey, State.render, jsOr]
    by_cases he : truthy envKey = true
    · simp [he]
    · simp [he, hkt]
  · intro ht
    simp [handleApiKeySubmit, State.render, ht, hk]

theorem c6_set_credential_witness :
    "NEW" ≠ "" ∧ (stateTyping " NEW " false).isClient = true ∧
    (stateTyping " NEW " false).storageFails = false ∧
    (setApiKey ((stateTyping " NEW " false).render none) "NEW"
      (stateTyping " NEW " false)).stored = some "NEW" ∧
    (setApiKey ((stateTyping " NEW " false).render none) "NEW"
      (stateTyping " NEW " false)).localApiKey = some "NEW" :=
  ⟨by decide, rfl, rfl,
    (c6_set_credential none (stateTyping " NEW " false) "NEW" (by decide) rfl rfl).1,
    (c6_set_credential none (stateTyping " NEW " false) "NEW" (by decide) rfl rfl).2.1⟩

/-- The timer callback of `handleApiKeySubmit` reads the key through the `getApiKey`
of the render that handled the submit. With no build-time key and no key stored
before, the dialog input `NEW` is saved and a fresh render resolves it, yet the timer
callback finds no credential: Credential Status is not set to `checking` and no call
is issued, against the comment `Re-validate and fetch data with delay` and the name
`newApiKey` in the source. -/
theorem handleApiKeySubmit_stale_timer :
    getApiKey ((handleApiKeySubmit ((stateTyping "NEW" false).render none)
      (stateTyping "NEW" false)).1.render none) = some "NEW" ∧
    handleApiKeySubmitTimer ((stateTyping "NEW" false).render none)
      (Remote.serving londonPayload ⟨[]⟩ (.ok 200 (some [])))
      (handleApiKeySubmit ((stateTyping "NEW" false).render none)
        (stateTyping "NEW" false)).1 =
      (handleApiKeySubmit ((stateTyping "NEW" false).render none)
        (stateTyping "NEW" false)).1 ∧
    (handleApiKeySubmit ((stateTyping "NEW" false).render none)
      (stateTyping "NEW" false)).1.apiKeyStatus ≠ .checking ∧
    (handleApiKeySubmit ((stateTyping "NEW" false).render none)
      (stateTyping "NEW" false)).1.calls = [] := by
  decide

/-! ## C7: credential precedence -/

/-- C7. For every build-time key and stored key, each possibly absent or empty,
`getApiKey()` returns the build-time key when it is non-empty, otherwise the stored key
when it is non-empty, otherwise `null`; being a total function, it never fails. -/
theorem c7_getApiKey_precedence (r : Render) :
    getApiKey r = resolveSpec r.envKey r.localApiKey := by
  rcases r with ⟨e, l, c, ci, t⟩
  rcases e with _ | e <;> rcases l with _ | l <;>
    simp only [getApiKey, jsOr, truthy, resolveSpec] <;>
    (try by_cases he : e = "") <;> (try by_cases hl : l = "") <;> simp [*]

/-! ## C8: a failing storage write -/

/-- C8, as stated, fails. In a client-initialised state whose storage write throws,
`setApiKey("K")` opens the warning snackbar but `localApiKey` stays `null`. -/
theorem c8_counterexample :
    (setApiKey ((stateTyping "K" true).render none) "K" (stateTyping "K" true)).snackbar
      = ⟨true, msgStorageWarning, "warning"⟩ ∧
    (setApiKey ((stateTyping "K" true).render none) "K" (stateTyping "K" true)).localApiKey
      ≠ some "K" := by
  decide

/-- C8, amended. For a non-empty `k`, in a client-initialised state whose storage write
throws, `setApiKey(k)` opens the snackbar with the storage warning at severity
`warning` and changes nothing else: `localApiKey`, the stored value and Credential
Status keep their prior values. -/
theorem c8_storage_failure_warns (envKey : Option String) (s : State) (k : String)
    (hk : k ≠ "") (hc : s.isClient = true) (hw : s.storageFails = true) :
    setApiKey (s.render envKey) k s =
      { s with snackbar := ⟨true, msgStorageWarning, "warning"⟩ } ∧
    (setApiKey (s.render envKey) k s).localApiKey = s.localApiKey ∧
    (setApiKey (s.render envKey) k s).stored = s.stored ∧
    (setApiKey (s.render envKey) k s).apiKeyStatus = s.apiKeyStatus := by
  have hset : setApiKey (s.render envKey) k s =
      { s with snackbar := ⟨true, msgStorageWarning, "warning"⟩ } := by
    simp [setApiKey, State.render, hc, hw, hk]
  exact ⟨hset, by rw [hset], by rw [hset], by rw [hset]⟩

theorem c8_storage_failure_warns_witness :
    "K" ≠ "" ∧ (stateTyping "K" true).isClient = true ∧
    (stateTyping "K" true).storageFails = true ∧
    (setApiKey ((stateTyping "K" true).render none) "K" (stateTyping "K" true)).localApiKey
      = none :=
  ⟨by decide, rfl, rfl,
    (c8_storage_failure_warns none (stateTyping "K" true) "K" (by decide) rfl rfl).2.1⟩

/-! ## C9: validation of the credential -/

/-- C9, as stated, fails. The validation call resolves with HTTP 204, a success
response: Credential Status stays `checking` and no fetch is triggered (the call log
holds the validation call only). -/
theorem c9_counterexample :
    (validateApiKey renderWithKey (Remote.answering 204 londonPayload)
      (State.initial (some "K") false)).apiKeyStatus ≠ .valid ∧
    (validateApiKey renderWithKey (Remote.answering 204 londonPayload)
      (State.initial (some "K") false)).calls = [Request.weather "London" "K"] := by
  decide

/-- C9, amended. `validateApiKey`: with no active credential, Credential Status becomes
`missing` and no remote call is made; with a credential, one conditions call for
London is issued, and a response with status exactly 200 sets `valid` and then runs
`fetchWeatherData`; a resolved response with another status changes nothing more; a
failure with HTTP 401 sets `invalid`; any other failure sets `error`. -/
theorem c9_validate_outcomes (r : Render) (w : Remote) (s : State) :
    (getApiKey r = none →
      validateApiKey r w s = { s with apiKeyStatus := .missing }) ∧
    (∀ key, getApiKey r = some key →
      (∀ d, w.weather s.calls.length "London" key = .ok 200 d →
        validateApiKey r w s = fetchWeatherData r w none
          { { s with calls := s.calls ++ [Request.weather "London" key] } with
            apiKeyStatus := .valid }) ∧
      (∀ st d, w.weather s.calls.length "London" key = .ok st d → st ≠ 200 →
        validateApiKey r w s =
          { s with calls := s.calls ++ [Request.weather "London" key] }) ∧
      (∀ err, w.weather s.calls.length "London" key = .fail err →
        validateApiKey r w s =
          { { s with calls := s.calls ++ [Request.weather "London" key] } with
            apiKeyStatus := if err.status = some 401 then .invalid else .error })) := by
  refine ⟨fun hn => ?_, fun key hk => ?_⟩
  · simp [validateApiKey, hn, truthy]
  · have ht := (getApiKey_some_truthy hk).1
    have hv : ∀ s0 : State, validateApiKey r w s0 =
        match w.weather s0.calls.length "London" key with
        | .ok status _ =>
          if status = 200 then
            fetchWeatherData r w none
              { { s0 with calls := s0.calls ++ [Request.weather "London" key] } with
                apiKeyStatus := .valid }
          else { s0 with calls := s0.calls ++ [Request.weather "London" key] }
        | .fail err =>
          if err.status = some 401 then
            { { s0 with calls := s0.calls ++ [Request.weather "London" key] } with
              apiKeyStatus := .invalid }
          else
            { { s0 with calls := s0.calls ++ [Request.weather "London" key] } with
              apiKeyStatus := .error } := by
      intro s0
      unfold validateApiKey
      simp only [ht, Bool.not_true, Bool.false_eq_true, if_false]
      rw [hk]; rfl
    refine ⟨fun d h => ?_, fun st d h hst => ?_, fun err h => ?_⟩
    · rw [hv, h]; simp
    · rw [hv, h]; simp [hst]
    · rw [hv, h]; by_cases h401 : err.status = some 401 <;> simp [h401]

/-! ## C10: snapshot or error -/

theorem fetchProvince_frame (w : Remote) (lat lon : Int) (apiKey : String) (s : State) :
    (fetchProvince w lat lon apiKey s).weatherData = s.weatherData ∧
    (fetchProvince w lat lon apiKey s).error = s.error ∧
    (fetchProvince w lat lon apiKey s).apiKeyStatus = s.apiKeyStatus := by
  unfold fetchProvince
  split <;> exact ⟨rfl, rfl, rfl⟩

/-- With a credential present and a conditions payload that carries coordinates
whenever the conditions call succeeds, a fetch either stores the snapshot of the two
payloads with the error cleared, or sets the message of the one classified error and
keeps the prior snapshot. -/
theorem fetch_snapshot_or_error (r : Render) (w : Remote) (cityName : Option String)
    (s : State) (key : String) (hk : getApiKey r = some key)
    (hcoord : ∀ st d, w.weather s.calls.length (cityName.getD r.city) key = .ok st d →
      d.coord ≠ none) :
    (∃ st1 d1 st2 d2,
      w.weather s.calls.length (cityName.getD r.city) key = .ok st1 d1 ∧
      w.forecast (s.calls.length + 1) (cityName.getD r.city) key = .ok st2 d2 ∧
      (fetchWeatherData r w cityName s).weatherData = some ⟨d1, d2⟩ ∧
      (fetchWeatherData r w cityName s).error = none) ∨
    (∃ err, StepFails w (cityName.getD r.city) key s err ∧
      (fetchWeatherData r w cityName s).error = some (classify err).message ∧
      (fetchWeatherData r w cityName s).weatherData = s.weatherData) := by
  cases h1 : w.weather s.calls.length (cityName.getD r.city) key with
  | fail err =>
    right
    have hf : StepFails w (cityName.getD r.city) key s err := Or.inl h1
    obtain ⟨s0, hw0, -, h⟩ := fetchWeatherData_of_stepFails r w cityName s key err hk hf
    refine ⟨err, hf, ?_, ?_⟩
    · rw [h]; exact catchWeatherError_error err s0
    · rw [h]; exact ((catchWeatherError_frame err s0).1).trans hw0
  | ok st1 d1 =>
    cases h2 : w.forecast (s.calls.length + 1) (cityName.getD r.city) key with
    | fail err =>
      right
      have hf : StepFails w (cityName.getD r.city) key s err := Or.inr ⟨st1, d1, h1, h2⟩
      obtain ⟨s0, hw0, -, h⟩ := fetchWeatherData_of_stepFails r w cityName s key err hk hf
      refine ⟨err, hf, ?_, ?_⟩
      · rw [h]; exact catchWeatherError_error err s0
      · rw [h]; exact ((catchWeatherError_frame err s0).1).trans hw0
    | ok st2 d2 =>
      left
      refine ⟨st1, d1, st2, d2, rfl, rfl, ?_⟩
      obtain ⟨c, hc⟩ := Option.ne_none_iff_exists'.1 (hcoord st1 d1 h1)
      rw [fetchWeatherData, fetchWeatherDataBody_of_key hk]
      simp only [fetchWeatherDataTry, h1, List.length_append, List.length_singleton, h2, hc]
      exact ⟨(fetchProvince_frame _ _ _ _ _).1, (fetchProvince_frame _ _ _ _ _).2.1⟩

/-- C10, evaluated at the failing input. Both calls answer 200 and the conditions
payload has no `coord` object: the fetch stores the new snapshot, sets Credential
Status to `valid`, and also sets the generic error; the two calls are the only ones
issued. -/
theorem c10_snapshot_and_error :
    (fetchWeatherData renderWithKey
      (Remote.serving payloadNoCoord ⟨[]⟩ (.ok 200 (some []))) none
      (State.initial none false)).calls =
        [Request.weather "London" "K", Request.forecast "London" "K"] ∧
    (fetchWeatherData renderWithKey
      (Remote.serving payloadNoCoord ⟨[]⟩ (.ok 200 (some []))) none
      (State.initial none false)).weatherData = some ⟨payloadNoCoord, ⟨[]⟩⟩ ∧
    (fetchWeatherData renderWithKey
      (Remote.serving payloadNoCoord ⟨[]⟩ (.ok 200 (some []))) none
      (State.initial none false)).error = some msgGeneric ∧
    (fetchWeatherData renderWithKey
      (Remote.serving payloadNoCoord ⟨[]⟩ (.ok 200 (some []))) none
      (State.initial none false)).apiKeyStatus = .valid := by
  decide

/-! ## C11: one forecast entry per day -/

theorem filterFrom_length {α : Type} (l : List α) (i : Nat) :
    (filterFrom (fun (_ : α) index => index % 8 == 0) i l).length =
      (i + l.length + 7) / 8 - (i + 7) / 8 := by
  induction l generalizing i with
  | nil => simp [filterFrom]
  | cons x xs ih =>
    unfold filterFrom
    by_cases h : i % 8 = 0
    · simp only [h, beq_self_eq_true, if_true, List.length_cons, ih]
      omega
    · have hb : (i % 8 == 0) = false := by simpa using h
      simp only [hb, Bool.false_eq_true, if_false, List.length_cons, ih]
      omega

/-- Indices `i, ..., i + k - 1` none of which is a multiple of 8 are all dropped. -/
theorem filterFrom_skip {α : Type} (k : Nat) (l : List α) (i : Nat)
    (h : ∀ j, i ≤ j → j < i + k → j % 8 ≠ 0) :
    filterFrom (fun (_ : α) index => index % 8 == 0) i l =
      filterFrom (fun (_ : α) index => index % 8 == 0) (i + k) (l.drop k) := by
  induction k generalizing l i with
  | zero => simp
  | succ k ih =>
    cases l with
    | nil => simp [filterFrom]
    | cons x xs =>
      have hi : (i % 8 == 0) = false := by
        have := h i (le_refl _) (by omega)
        simpa using this
      rw [filterFrom]
      simp only [hi, Bool.false_eq_true, if_false, List.drop_succ_cons]
      rw [ih xs (i + 1) (fun j h1 h2 => h j (by omega) (by omega))]
      congr 1
      omega

/-- At a multiple of 8 the entry is kept and the next seven are dropped. -/
theorem filterFrom_step {α : Type} (l : List α) (m : Nat) (h : m < l.length)
    (hm : m % 8 = 0) :
    filterFrom (fun (_ : α) index => index % 8 == 0) m (l.drop m) =
      l[m] :: filterFrom (fun (_ : α) index => index % 8 == 0) (m + 8) (l.drop (m + 8)) := by
  rw [List.drop_eq_getElem_cons h, filterFrom]
  simp only [hm, beq_self_eq_true, if_true]
  rw [filterFrom_skip 7 (l.drop (m + 1)) (m + 1) (fun j h1 h2 => by omega)]
  simp [List.drop_drop]

theorem ceil_div_eight (n : Nat) : ⌈(n : ℚ) / 8⌉₊ = (n + 7) / 8 := by
  apply le_antisymm
  · rw [Nat.ceil_le, div_le_iff₀ (by norm_num)]
    have h : n ≤ (n + 7) / 8 * 8 := by omega
    exact_mod_cast h
  · have h := Nat.le_ceil ((n : ℚ) / 8)
    rw [div_le_iff₀ (by norm_num)] at h
    have h2 : n ≤ ⌈(n : ℚ) / 8⌉₊ * 8 := by exact_mod_cast h
    omega

/-- C11. For every forecast list of length 40, the one-per-day selection (keep the
indices divisible by 8, then the first 5) is the list of the entries at indices 0, 8,
16, 24 and 32, in order, hence has exactly 5 entries; and for a list of any length `n`
the selection has `min 5 ⌈n / 8⌉` entries. -/
theorem c11_one_per_day (l : List ForecastEntry) (h : l.length = 40) :
    forecastPerDay l = [l[0], l[8], l[16], l[24], l[32]] ∧
    (forecastPerDay l).length = 5 ∧
    ∀ m : List ForecastEntry,
      (forecastPerDay m).length = min 5 ⌈(m.length : ℚ) / 8⌉₊ := by
  have hsel : forecastPerDay l = [l[0], l[8], l[16], l[24], l[32]] := by
    unfold forecastPerDay jsFilter jsSlice
    have h0 := filterFrom_step l 0 (by omega) (by decide)
    have h8 := filterFrom_step l 8 (by omega) (by decide)
    have h16 := filterFrom_step l 16 (by omega) (by decide)
    have h24 := filterFrom_step l 24 (by omega) (by decide)
    have h32 := filterFrom_step l 32 (by omega) (by decide)
    simp only [List.drop_zero, Nat.zero_add] at h0
    have h40 : l.drop 40 = [] := List.drop_eq_nil_of_le (by omega)
    rw [h0, h8, h16, h24, h32, h40]
    simp [filterFrom]
  refine ⟨hsel, by rw [hsel]; rfl, fun m => ?_⟩
  unfold forecastPerDay jsFilter jsSlice
  rw [ceil_div_eight]
  simp only [List.drop_zero, Nat.sub_zero, List.length_take, filterFrom_length]
  omega

theorem c11_one_per_day_witness :
    sampleForecast.length = 40 ∧
    forecastPerDay sampleForecast =
      [⟨0, 800⟩, ⟨8, 800⟩, ⟨16, 800⟩, ⟨24, 800⟩, ⟨32, 800⟩] :=
  ⟨by decide, (c11_one_per_day sampleForecast (by decide)).1⟩

/-! ## C12: weather icons -/

set_option maxRecDepth 1000000 in
theorem getWeatherIcon_table : ∀ n : Nat, n < 1000 →
    (200 ≤ n ∧ n ≤ 299 → getWeatherIcon (some (n : Int)) = iconThunderstorm) ∧
    (300 ≤ n ∧ n ≤ 399 → getWeatherIcon (some (n : Int)) = iconDrizzle) ∧
    (500 ≤ n ∧ n ≤ 599 → getWeatherIcon (some (n : Int)) = iconRain) ∧
    (600 ≤ n ∧ n ≤ 699 → getWeatherIcon (some (n : Int)) = iconSnow) ∧
    (700 ≤ n ∧ n ≤ 799 → getWeatherIcon (some (n : Int)) = iconAtmosphere) ∧
    (n = 800 → getWeatherIcon (some (n : Int)) = iconClear) ∧
    (801 ≤ n ∧ n ≤ 899 → getWeatherIcon (some (n : Int)) = iconClouds) ∧
    ((400 ≤ n ∧ n ≤ 499) ∨ (900 ≤ n ∧ n ≤ 999) →
      getWeatherIcon (some (n : Int)) = iconDefault) := by
  decide

/-- C12. `getWeatherIcon` is a total function; for every integer code `c` with
`0 ≤ c ≤ 999` it returns the thunderstorm icon on 200..299, drizzle on 300..399, rain
on 500..599, snow on 600..699, atmosphere on 700..799, clear on 800, clouds on
801..899 and the default icon on 400..499 and 900..999; on `null`/`undefined` it
returns the default icon. -/
theorem c12_getWeatherIcon (c : Int) (h0 : 0 ≤ c) (h1 : c ≤ 999) :
    (200 ≤ c ∧ c ≤ 299 → getWeatherIcon (some c) = iconThunderstorm) ∧
    (300 ≤ c ∧ c ≤ 399 → getWeatherIcon (some c) = iconDrizzle) ∧
    (500 ≤ c ∧ c ≤ 599 → getWeatherIcon (some c) = iconRain) ∧
    (600 ≤ c ∧ c ≤ 699 → getWeatherIcon (some c) = iconSnow) ∧
    (700 ≤ c ∧ c ≤ 799 → getWeatherIcon (some c) = iconAtmosphere) ∧
    (c = 800 → getWeatherIcon (some c) = iconClear) ∧
    (801 ≤ c ∧ c ≤ 899 → getWeatherIcon (some c) = iconClouds) ∧
    ((400 ≤ c ∧ c ≤ 499) ∨ (900 ≤ c ∧ c ≤ 999) → getWeatherIcon (some c) = iconDefault) ∧
    getWeatherIcon none = iconDefault := by
  obtain ⟨n, rfl⟩ := Int.eq_ofNat_of_zero_le h0
  obtain ⟨t, d, r, s, a, cl, co, df⟩ := getWeatherIcon_table n (by omega)
  refine ⟨fun h => t (by omega), fun h => d (by omega), fun h => r (by omega),
    fun h => s (by omega), fun h => a (by omega), fun h => cl (by omega),
    fun h => co (by omega), fun h => df (by omega), rfl⟩

theorem c12_getWeatherIcon_witness :
    (0 : Int) ≤ 800 ∧ (800 : Int) ≤ 999 ∧ getWeatherIcon (some 800) = iconClear ∧
    getWeatherIcon none = iconDefault :=
  ⟨by decide, by decide, (c12_getWeatherIcon 800 (by decide) (by decide)).2.2.2.2.2.1 rfl,
    (c12_getWeatherIcon 800 (by decide) (by decide)).2.2.2.2.2.2.2.2⟩

end Weather
